import Mathlib

/-!
Verification of the simulation core of the "Falling Rocks" arcade game
(src/App.tsx, the responsive variant). JavaScript numbers are modelled as
rationals, the per-frame `gameLoop` callback as a pure step function on a
session-state record, `Math.random()` draws and the `Date.now()` clock as
explicit tick inputs, and the React state updates of one animation frame as
one transition. `fontSize` of the dimension hook is presentation-only and
omitted.
-/

/-- Object categories: `'rock' | 'coin' | 'star' | 'gem'`. -/
inductive ObjType where
  | rock
  | coin
  | star
  | gem
deriving DecidableEq

/-- `interface GameObject` of the source. -/
structure GameObject where
  id : ℕ
  x : ℚ
  y : ℚ
  speed : ℚ
  type : ObjType
deriving DecidableEq

/-- `interface Player` of the source. -/
structure Player where
  x : ℚ
  y : ℚ
  width : ℚ
  height : ℚ
deriving DecidableEq

/-- `interface GameDimensions` of the source (without the presentation-only
`fontSize` field). -/
structure GameDimensions where
  width : ℚ
  height : ℚ
  playerSize : ℚ
  objectSize : ℚ
  playerSpeed : ℚ
deriving DecidableEq

def BASE_WIDTH : ℚ := 800

def BASE_HEIGHT : ℚ := 600

def BASE_PLAYER_SIZE : ℚ := 40

def BASE_OBJECT_SIZE : ℚ := 30

def BASE_PLAYER_SPEED : ℚ := 8

def MIN_WIDTH : ℚ := 280

def MIN_HEIGHT : ℚ := 200

def MIN_SCALE : ℚ := 35/100

/-- `calculateDimensions` of the source. `availableWidth` models
`window.innerWidth - 16` and `availableHeight` models `window.innerHeight`
(the source multiplies the latter by `0.6` itself). -/
def calculateDimensions (availableWidth availableHeight : ℚ) : GameDimensions :=
  let widthScale := availableWidth / BASE_WIDTH
  let heightScale := availableHeight * (6/10) / BASE_HEIGHT
  let rawScale := min (min widthScale heightScale) 1
  let scale := max rawScale MIN_SCALE
  { width := max MIN_WIDTH (min ((⌊BASE_WIDTH * scale⌋ : ℤ) : ℚ) availableWidth)
    height := max MIN_HEIGHT ((⌊BASE_HEIGHT * scale⌋ : ℤ) : ℚ)
    playerSize := max 20 ((⌊BASE_PLAYER_SIZE * scale⌋ : ℤ) : ℚ)
    objectSize := max 16 ((⌊BASE_OBJECT_SIZE * scale⌋ : ℤ) : ℚ)
    playerSpeed := max 3 (BASE_PLAYER_SPEED * scale) }

/-- The scale factor computed by `calculateDimensions`, as the specification
states it: `max(MIN_SCALE, min(availableWidth/BASE_WIDTH,
availableHeight·0.6/BASE_HEIGHT, 1))`. -/
def scaleOf (availableWidth availableHeight : ℚ) : ℚ :=
  max (min (min (availableWidth / BASE_WIDTH) (availableHeight * (6/10) / BASE_HEIGHT)) 1)
    MIN_SCALE

/-- The weighted category selection table
`['rock', 'rock', 'coin', 'star', 'gem']` of `spawnObject`. -/
def types : List ObjType := [.rock, .rock, .coin, .star, .gem]

/-- `spawnObject` of the source. `rType`, `rX`, `rSpeed` are the three
`Math.random()` draws (each in `[0,1)`); `objectId` is
`objectIdRef.current`. -/
def spawnObject (dims : GameDimensions) (objectId : ℕ) (rType rX rSpeed : ℚ) : GameObject :=
  let type := types.getD (⌊rType * 5⌋).toNat ObjType.rock
  let baseSpeed : ℚ := if type = ObjType.rock then 3 + rSpeed * 2 else 2 + rSpeed * (3/2)
  { id := objectId
    x := rX * (dims.width - dims.objectSize)
    y := -dims.objectSize
    speed := baseSpeed * (dims.height / BASE_HEIGHT)
    type := type }

/-- `checkCollision` of the source: axis-aligned overlap of an object with
the player, the object extent taken from the current dimension snapshot. -/
def checkCollision (dims : GameDimensions) (obj : GameObject) (plr : Player) : Bool :=
  decide (obj.x < plr.x + plr.width) &&
  decide (obj.x + dims.objectSize > plr.x) &&
  decide (obj.y < plr.y + plr.height) &&
  decide (obj.y + dims.objectSize > plr.y)

/-- The touch direction state: `'left' | 'right'` (or `null`, as `none`). -/
inductive TouchDir where
  | left
  | right
deriving DecidableEq

def arrowLeftKey : String := "ArrowLeft"

def arrowRightKey : String := "ArrowRight"

def lowerAKey : String := "a"

def upperAKey : String := "A"

def lowerDKey : String := "d"

def upperDKey : String := "D"

/-- The `setPlayer` updater of `gameLoop`: apply the normalized movement
intent to the player's x, clamping left at 0 and right at
`width - playerSize` (the right branch reads `prev.x`, not the
left-clamped value). -/
def movePlayer (dims : GameDimensions) (keys : List String) (touch : Option TouchDir)
    (prev : Player) : Player :=
  let isMovingLeft := keys.contains arrowLeftKey || keys.contains lowerAKey ||
    keys.contains upperAKey || decide (touch = some TouchDir.left)
  let isMovingRight := keys.contains arrowRightKey || keys.contains lowerDKey ||
    keys.contains upperDKey || decide (touch = some TouchDir.right)
  let newX := prev.x
  let newX := if isMovingLeft then max 0 (prev.x - dims.playerSpeed) else newX
  let newX := if isMovingRight then min (dims.width - dims.playerSize) (prev.x + dims.playerSpeed)
    else newX
  { prev with x := newX }

/-- The spawn step of `gameLoop`: when `now - lastSpawnRef.current > 1000`,
append exactly one spawned object and record the spawn time; otherwise
change nothing. Returns (objects, lastSpawn, objectId). -/
def trySpawn (dims : GameDimensions) (objects : List GameObject) (objectId : ℕ)
    (lastSpawn now : ℤ) (rType rX rSpeed : ℚ) : List GameObject × ℤ × ℕ :=
  if 1000 < now - lastSpawn then
    (objects ++ [spawnObject dims objectId rType rX rSpeed], now, objectId + 1)
  else
    (objects, lastSpawn, objectId)

/-- The `updated.forEach` loop of the `setObjects` updater: walk the moved,
on-field objects in order; a colliding object is consumed and its outcome
folded into (score, lives, gameOver) exactly as the nested `setLives` /
`setScore` / `setGameOver` calls do; a non-colliding object is kept.
Returns (remaining, score, lives, gameOver). -/
def resolve (dims : GameDimensions) (plr : Player) :
    List GameObject → ℤ → ℤ → Bool → List GameObject × ℤ × ℤ × Bool
  | [], score, lives, over => ([], score, lives, over)
  | obj :: rest, score, lives, over =>
    if checkCollision dims obj plr then
      match obj.type with
      | ObjType.rock =>
        let newLives := lives - 1
        resolve dims plr rest score newLives (if newLives ≤ 0 then true else over)
      | ObjType.coin => resolve dims plr rest (score + 10) lives over
      | ObjType.star => resolve dims plr rest (score + 25) lives over
      | ObjType.gem => resolve dims plr rest (score + 50) lives over
    else
      let r := resolve dims plr rest score lives over
      (obj :: r.1, r.2)

/-- One tick's inputs: the clock, the held key set, the touch direction,
the current dimension snapshot (`dimsRef.current`), and the three
`Math.random()` draws a spawn would consume. -/
structure TickInput where
  now : ℤ
  keys : List String
  touch : Option TouchDir
  dims : GameDimensions
  rType : ℚ
  rX : ℚ
  rSpeed : ℚ

/-- The session state owned by the component: the React state variables
plus the mutable refs that survive across ticks. -/
structure GameState where
  gameStarted : Bool
  gameOver : Bool
  score : ℤ
  lives : ℤ
  player : Player
  objects : List GameObject
  objectId : ℕ
  lastSpawn : ℤ
deriving DecidableEq

/-- `gameLoop` of the source: one animation-frame tick. Returns the state
unchanged when not running; otherwise spawns (cadence-gated), moves the
player, advances every object by its own fall speed, drops objects with
`y ≥ height`, and resolves collisions against the moved player. -/
def gameLoop (st : GameState) (inp : TickInput) : GameState :=
  if !st.gameStarted || st.gameOver then st
  else
    let currentDims := inp.dims
    let s := trySpawn currentDims st.objects st.objectId st.lastSpawn inp.now
      inp.rType inp.rX inp.rSpeed
    let currentPlayer := movePlayer currentDims inp.keys inp.touch st.player
    let updated := (s.1.map (fun o => { o with y := o.y + o.speed })).filter
      (fun o => decide (o.y < currentDims.height))
    let r := resolve currentDims currentPlayer updated st.score st.lives st.gameOver
    { gameStarted := st.gameStarted
      gameOver := r.2.2.2
      score := r.2.1
      lives := r.2.2.1
      player := currentPlayer
      objects := r.1
      objectId := s.2.2
      lastSpawn := s.2.1 }

/-- The player as (re)created by `startGame` and the initial `useState`:
centered horizontally, at the fixed vertical offset from the bottom. -/
def initialPlayer (dims : GameDimensions) : Player :=
  { x := dims.width / 2 - dims.playerSize / 2
    y := dims.height - dims.playerSize - 20
    width := dims.playerSize
    height := dims.playerSize }

/-- The component's initial state (all `useState` initializers and refs). -/
def initialState (dims : GameDimensions) : GameState :=
  { gameStarted := false
    gameOver := false
    score := 0
    lives := 3
    player := initialPlayer dims
    objects := []
    objectId := 0
    lastSpawn := 0 }

/-- `startGame` of the source, used for both the start and the restart
button: resets everything except the object-id counter; records the call
time as the last spawn time. -/
def startGame (st : GameState) (dims : GameDimensions) (now : ℤ) : GameState :=
  { gameStarted := true
    gameOver := false
    score := 0
    lives := 3
    player := initialPlayer dims
    objects := []
    objectId := st.objectId
    lastSpawn := now }

/-- The session phase as the UI derives it from the two flags
(`!gameStarted ? start-screen : gameOver ? game-over : running`). -/
inductive Phase where
  | NotStarted
  | Running
  | GameOver
deriving DecidableEq

def phase (st : GameState) : Phase :=
  if st.gameStarted then (if st.gameOver then Phase.GameOver else Phase.Running)
  else Phase.NotStarted

/-- States reachable through the component's lifecycle: the initial mount,
the start/restart button, animation-frame ticks with arbitrary inputs
(clock, keys, touch, resize-delivered dimension snapshot), and the
re-centering effect that runs on resize before the session starts. -/
inductive Reachable : GameState → Prop
  | init (dims : GameDimensions) : Reachable (initialState dims)
  | start (st : GameState) (dims : GameDimensions) (now : ℤ) :
      Reachable st → Reachable (startGame st dims now)
  | step (st : GameState) (inp : TickInput) :
      Reachable st → Reachable (gameLoop st inp)
  | recenter (st : GameState) (dims : GameDimensions) :
      Reachable st → st.gameStarted = false →
      Reachable { st with player := initialPlayer dims }

/-- States reachable within a session during which every tick observed the
same dimension snapshot `dims` (no resize since the session started). -/
inductive ReachableAt (dims : GameDimensions) : GameState → Prop
  | start (st : GameState) (now : ℤ) : ReachableAt dims (startGame st dims now)
  | step (st : GameState) (inp : TickInput) :
      ReachableAt dims st → inp.dims = dims → ReachableAt dims (gameLoop st inp)

/-- Whether a tick from state `st` with input `inp` fires the spawner. -/
def spawnFired (st : GameState) (inp : TickInput) : Bool :=
  st.gameStarted && !st.gameOver && decide (1000 < inp.now - st.lastSpawn)

/-- The clock times of the ticks, within a given tick-input sequence, on
which the spawner fires. -/
def spawnTimes (st : GameState) : List TickInput → List ℤ
  | [] => []
  | inp :: rest =>
    if spawnFired st inp then inp.now :: spawnTimes (gameLoop st inp) rest
    else spawnTimes (gameLoop st inp) rest

/-- The geometry produced for a 800-wide, 600-tall usable area: scale 1,
i.e. the base dimensions. -/
def dims800 : GameDimensions :=
  { width := 800, height := 600, playerSize := 40, objectSize := 30, playerSpeed := 8 }

/-- The geometry produced for a 316-wide usable area (a narrow viewport):
scale 0.395. -/
def dimsNarrow : GameDimensions :=
  { width := 316, height := 237, playerSize := 20, objectSize := 16, playerSpeed := 79/25 }

/-- The geometry produced for a 400-wide usable area: scale 0.5. -/
def dimsHalf : GameDimensions :=
  { width := 400, height := 300, playerSize := 20, objectSize := 16, playerSpeed := 4 }

/-- The player created by `startGame` under `dims800`. -/
def player800 : Player := { x := 380, y := 540, width := 40, height := 40 }

/-- A coin overlapping the centered player (y is the post-move position). -/
def coinHit : GameObject := { id := 0, x := 380, y := 522, speed := 2, type := ObjType.coin }

def starHit : GameObject := { id := 1, x := 380, y := 522, speed := 2, type := ObjType.star }

def gemHit : GameObject := { id := 2, x := 380, y := 522, speed := 2, type := ObjType.gem }

def rockHit : GameObject := { id := 3, x := 380, y := 522, speed := 3, type := ObjType.rock }

/-- The scenario state for injected reward collisions: a fresh session under
`dims800` whose field contains one coin, one star and one gem, each placed
to overlap the player on the next tick. -/
def c4Start : GameState :=
  { startGame (initialState dims800) dims800 0 with
      objects := [{ coinHit with y := 520 }, { starHit with y := 520 }, { gemHit with y := 520 }] }

def idleInput (dims : GameDimensions) (now : ℤ) : TickInput :=
  { now := now, keys := [], touch := none, dims := dims, rType := 0, rX := 0, rSpeed := 0 }

/-- The state reached by starting a session under the wide geometry and
then ticking once after a resize delivered the narrow geometry, with no
movement intent. -/
def c2State : GameState :=
  gameLoop (startGame (initialState dims800) dims800 0) (idleInput dimsNarrow 0)

/-- A running session under `dims800` with one in-flight rock at (100, 400),
away from the player. -/
def c9State : GameState :=
  { startGame (initialState dims800) dims800 0 with
      objects := [{ id := 0, x := 100, y := 400, speed := 3, type := ObjType.rock }] }

/-- A tick input under `dims800` whose random draws make a spawned object a
rock at x = 380 (rX = 38/77) with base speed 3 + 2·rSpeed. -/
def spawnInput (now : ℤ) (rSpeed : ℚ) : TickInput :=
  { now := now, keys := [], touch := none, dims := dims800, rType := 0, rX := 38/77,
    rSpeed := rSpeed }

def c1s1 : GameState :=
  { gameStarted := true, gameOver := false, score := 0, lives := 3, player := player800,
    objects := [{ id := 0, x := 380, y := -27, speed := 3, type := ObjType.rock }],
    objectId := 1, lastSpawn := 1001 }

def c1s2 : GameState :=
  { gameStarted := true, gameOver := false, score := 0, lives := 3, player := player800,
    objects := [{ id := 0, x := 380, y := -24, speed := 3, type := ObjType.rock },
      { id := 1, x := 380, y := -26, speed := 4, type := ObjType.rock }],
    objectId := 2, lastSpawn := 2002 }

def c1s3 : GameState :=
  { gameStarted := true, gameOver := false, score := 0, lives := 3, player := player800,
    objects := [{ id := 0, x := 380, y := -21, speed := 3, type := ObjType.rock },
      { id := 1, x := 380, y := -22, speed := 4, type := ObjType.rock },
      { id := 2, x := 380, y := -26, speed := 4, type := ObjType.rock }],
    objectId := 3, lastSpawn := 3003 }

def c1s4 : GameState :=
  { gameStarted := true, gameOver := false, score := 0, lives := 3, player := player800,
    objects := [{ id := 0, x := 380, y := 105, speed := 3, type := ObjType.rock },
      { id := 1, x := 380, y := 146, speed := 4, type := ObjType.rock },
      { id := 2, x := 380, y := 142, speed := 4, type := ObjType.rock }],
    objectId := 3, lastSpawn := 3003 }

def c1s5 : GameState :=
  { gameStarted := true, gameOver := false, score := 0, lives := 3, player := player800,
    objects := [{ id := 0, x := 380, y := 108, speed := 3, type := ObjType.rock },
      { id := 1, x := 380, y := 150, speed := 4, type := ObjType.rock },
      { id := 2, x := 380, y := 146, speed := 4, type := ObjType.rock },
      { id := 3, x := 380, y := -26, speed := 4, type := ObjType.rock }],
    objectId := 4, lastSpawn := 4004 }

def c1s6 : GameState :=
  { gameStarted := true, gameOver := false, score := 0, lives := 3, player := player800,
    objects := [{ id := 0, x := 380, y := 378, speed := 3, type := ObjType.rock },
      { id := 1, x := 380, y := 510, speed := 4, type := ObjType.rock },
      { id := 2, x := 380, y := 506, speed := 4, type := ObjType.rock },
      { id := 3, x := 380, y := 334, speed := 4, type := ObjType.rock }],
    objectId := 4, lastSpawn := 4004 }

def c1s7 : GameState :=
  { gameStarted := true, gameOver := false, score := 0, lives := 2, player := player800,
    objects := [{ id := 0, x := 380, y := 381, speed := 3, type := ObjType.rock },
      { id := 2, x := 380, y := 510, speed := 4, type := ObjType.rock },
      { id := 3, x := 380, y := 338, speed := 4, type := ObjType.rock }],
    objectId := 4, lastSpawn := 4004 }

def c1s8 : GameState :=
  { gameStarted := true, gameOver := false, score := 0, lives := 1, player := player800,
    objects := [{ id := 0, x := 380, y := 384, speed := 3, type := ObjType.rock },
      { id := 3, x := 380, y := 342, speed := 4, type := ObjType.rock }],
    objectId := 4, lastSpawn := 4004 }

def c1s9 : GameState :=
  { gameStarted := true, gameOver := false, score := 0, lives := 1, player := player800,
    objects := [{ id := 0, x := 380, y := 510, speed := 3, type := ObjType.rock },
      { id := 3, x := 380, y := 510, speed := 4, type := ObjType.rock }],
    objectId := 4, lastSpawn := 4004 }

/-- The state of a session, started under `dims800` at time 0, after 181
ticks in which four rocks are spawned (at clock times 1001, 2002, 3003 and
4004, with base speeds 3, 4, 4 and 4 and x = 380) so that the first two hit
the player on consecutive ticks and the last two hit it simultaneously on
the 181st tick. -/
def c1Final : GameState :=
  gameLoop ((fun s => gameLoop s (idleInput dims800 4004))^[42]
    (gameLoop (gameLoop ((fun s => gameLoop s (idleInput dims800 4004))^[90]
      (gameLoop ((fun s => gameLoop s (idleInput dims800 3003))^[42]
        (gameLoop (gameLoop (gameLoop (startGame (initialState dims800) dims800 0)
          (spawnInput 1001 0)) (spawnInput 2002 (1/2))) (spawnInput 3003 (1/2))))
        (spawnInput 4004 (1/2))))
      (idleInput dims800 4004)) (idleInput dims800 4004)))
    (idleInput dims800 4004)

theorem dims800_spec : calculateDimensions 800 1000 = dims800 := by
  simp only [calculateDimensions, dims800, BASE_WIDTH, BASE_HEIGHT, BASE_PLAYER_SIZE,
    BASE_OBJECT_SIZE, BASE_PLAYER_SPEED, MIN_WIDTH, MIN_HEIGHT, MIN_SCALE]
  norm_num

theorem dimsNarrow_spec : calculateDimensions 316 1000 = dimsNarrow := by
  simp only [calculateDimensions, dimsNarrow, BASE_WIDTH, BASE_HEIGHT, BASE_PLAYER_SIZE,
    BASE_OBJECT_SIZE, BASE_PLAYER_SPEED, MIN_WIDTH, MIN_HEIGHT, MIN_SCALE]
  norm_num

theorem dimsHalf_spec : calculateDimensions 400 10000 = dimsHalf := by
  simp only [calculateDimensions, dimsHalf, BASE_WIDTH, BASE_HEIGHT, BASE_PLAYER_SIZE,
    BASE_OBJECT_SIZE, BASE_PLAYER_SPEED, MIN_WIDTH, MIN_HEIGHT, MIN_SCALE]
  norm_num

theorem player800_spec : initialPlayer dims800 = player800 := by
  simp only [initialPlayer, dims800, player800]
  norm_num

/-- C5: For every prior state (NotStarted, Running, or GameOver), executing
the start/restart command yields a state with score = 0, lives = 3, an empty
entity collection, phase = Running, and the player repositioned centered
horizontally at the fixed vertical offset under the current geometry. -/
theorem c5_start_resets (st : GameState) (dims : GameDimensions) (now : ℤ) :
    (startGame st dims now).score = 0 ∧ (startGame st dims now).lives = 3 ∧
    (startGame st dims now).objects = [] ∧ phase (startGame st dims now) = Phase.Running ∧
    (startGame st dims now).player.x = dims.width / 2 - dims.playerSize / 2 ∧
    (startGame st dims now).player.y = dims.height - dims.playerSize - 20 := by
  simp [startGame, phase, initialPlayer]

/-- C6: the category selection table has five slots of which exactly two are
Hazard (`rock`) and exactly one each is Coin, Star and Gem, and the spawner
indexes uniformly into it: random draw `k/5` selects slot `k`. -/
theorem c6_category_weights :
    types.length = 5 ∧
    types.count ObjType.rock = 2 ∧ types.count ObjType.coin = 1 ∧
    types.count ObjType.star = 1 ∧ types.count ObjType.gem = 1 ∧
    ∀ (dims : GameDimensions) (objectId : ℕ) (rX rSpeed : ℚ) (k : Fin 5),
      (spawnObject dims objectId (((k : ℕ) : ℚ) / 5) rX rSpeed).type =
        types.getD (k : ℕ) ObjType.rock := by
  refine ⟨rfl, rfl, rfl, rfl, rfl, ?_⟩
  intro dims objectId rX rSpeed k
  have h5 : (((k : ℕ) : ℚ) / 5) * 5 = ((k : ℕ) : ℚ) := by
    rw [div_mul_cancel₀]
    norm_num
  simp only [spawnObject, h5, Int.floor_natCast, Int.toNat_natCast]

theorem resolve_over_monotone (dims : GameDimensions) (plr : Player) :
    ∀ (objs : List GameObject) (s l : ℤ),
      (resolve dims plr objs s l true).2.2.2 = true := by
  intro objs
  induction objs with
  | nil => intro s l; rfl
  | cons obj rest ih =>
    intro s l
    simp only [resolve]
    by_cases hc : checkCollision dims obj plr
    · rw [if_pos hc]
      cases ht : obj.type <;> simp only []
      · rw [ite_self]
        exact ih s (l - 1)
      · exact ih (s + 10) l
      · exact ih (s + 25) l
      · exact ih (s + 50) l
    · rw [if_neg hc]
      exact ih s l

theorem resolve_lives_le (dims : GameDimensions) (plr : Player) :
    ∀ (objs : List GameObject) (s l : ℤ) (ov : Bool),
      (resolve dims plr objs s l ov).2.2.1 ≤ l := by
  intro objs
  induction objs with
  | nil => intro s l ov; exact le_refl l
  | cons obj rest ih =>
    intro s l ov
    simp only [resolve]
    by_cases hc : checkCollision dims obj plr
    · rw [if_pos hc]
      cases ht : obj.type <;> simp only []
      · exact le_trans (ih s (l - 1) _) (by omega)
      · exact ih (s + 10) l ov
      · exact ih (s + 25) l ov
      · exact ih (s + 50) l ov
    · rw [if_neg hc]
      exact ih s l ov

theorem resolve_lives_dead (dims : GameDimensions) (plr : Player) :
    ∀ (objs : List GameObject) (s l : ℤ),
      0 < l → (resolve dims plr objs s l false).2.2.1 ≤ 0 →
      (resolve dims plr objs s l false).2.2.2 = true := by
  intro objs
  induction objs with
  | nil =>
    intro s l hl hres
    exact absurd hres (by simpa using hl)
  | cons obj rest ih =>
    intro s l hl hres
    simp only [resolve] at hres ⊢
    by_cases hc : checkCollision dims obj plr
    · simp only [if_pos hc] at hres ⊢
      cases ht : obj.type <;> rw [ht] at hres <;> simp only [] at hres ⊢
      · by_cases hd : l - 1 ≤ 0
        · simp only [if_pos hd] at hres ⊢
          exact resolve_over_monotone dims plr rest s (l - 1)
        · simp only [if_neg hd] at hres ⊢
          exact ih s (l - 1) (by omega) hres
      · exact ih (s + 10) l hl hres
      · exact ih (s + 25) l hl hres
      · exact ih (s + 50) l hl hres
    · simp only [if_neg hc] at hres ⊢
      exact ih s l hl hres

theorem resolve_counters_independent (dims : GameDimensions) (plr : Player) :
    ∀ (objs : List GameObject) (s l₁ l₂ : ℤ) (ov₁ ov₂ : Bool),
      (resolve dims plr objs s l₁ ov₁).1 = (resolve dims plr objs s l₂ ov₂).1 ∧
      (resolve dims plr objs s l₁ ov₁).2.1 = (resolve dims plr objs s l₂ ov₂).2.1 := by
  intro objs
  induction objs with
  | nil => intro s l₁ l₂ ov₁ ov₂; exact ⟨rfl, rfl⟩
  | cons obj rest ih =>
    intro s l₁ l₂ ov₁ ov₂
    simp only [resolve]
    by_cases hc : checkCollision dims obj plr
    · simp only [if_pos hc]
      cases ht : obj.type <;> simp only []
      · exact ih s (l₁ - 1) (l₂ - 1) _ _
      · exact ih (s + 10) l₁ l₂ ov₁ ov₂
      · exact ih (s + 25) l₁ l₂ ov₁ ov₂
      · exact ih (s + 50) l₁ l₂ ov₁ ov₂
    · simp only [if_neg hc]
      refine ⟨?_, (ih s l₁ l₂ ov₁ ov₂).2⟩
      simp only [(ih s l₁ l₂ ov₁ ov₂).1]

theorem resolve_no_collision (dims : GameDimensions) (plr : Player) :
    ∀ (objs : List GameObject) (s l : ℤ) (ov : Bool),
      (∀ o ∈ objs, checkCollision dims o plr = false) →
      resolve dims plr objs s l ov = (objs, s, l, ov) := by
  intro objs
  induction objs with
  | nil => intro s l ov _; rfl
  | cons obj rest ih =>
    intro s l ov h
    simp only [resolve]
    rw [if_neg (by simp [h obj (by simp)])]
    rw [ih s l ov (fun o ho => h o (by simp [ho]))]

theorem resolve_sublist (dims : GameDimensions) (plr : Player) :
    ∀ (objs : List GameObject) (s l : ℤ) (ov : Bool),
      (resolve dims plr objs s l ov).1.Sublist objs := by
  intro objs
  induction objs with
  | nil => intro s l ov; exact List.Sublist.refl []
  | cons obj rest ih =>
    intro s l ov
    simp only [resolve]
    by_cases hc : checkCollision dims obj plr
    · rw [if_pos hc]
      cases ht : obj.type <;> simp only []
      · exact (ih s (l - 1) _).cons obj
      · exact (ih (s + 10) l ov).cons obj
      · exact (ih (s + 25) l ov).cons obj
      · exact (ih (s + 50) l ov).cons obj
    · rw [if_neg hc]
      exact (ih s l ov).cons₂ obj

theorem coinHit_collides : checkCollision dims800 coinHit player800 = true := by
  norm_num [checkCollision, dims800, coinHit, player800]

theorem starHit_collides : checkCollision dims800 starHit player800 = true := by
  norm_num [checkCollision, dims800, starHit, player800]

theorem gemHit_collides : checkCollision dims800 gemHit player800 = true := by
  norm_num [checkCollision, dims800, gemHit, player800]

theorem rockHit_collides : checkCollision dims800 rockHit player800 = true := by
  norm_num [checkCollision, dims800, rockHit, player800]

theorem movePlayer_no_intent (dims : GameDimensions) (p : Player) :
    movePlayer dims [] none p = p := rfl

theorem c4Start_tick : gameLoop c4Start (idleInput dims800 0) =
    { gameStarted := true, gameOver := false, score := 85, lives := 3,
      player := player800, objects := [], objectId := 0, lastSpawn := 0 } := by
  norm_num [gameLoop, c4Start, idleInput, startGame, initialState, trySpawn, movePlayer_no_intent,
    coinHit, starHit, gemHit, player800, initialPlayer, dims800, resolve, checkCollision]

/-- C4: Starting from phase Running, a Coin collision adds exactly 10 to
score, a Star collision adds exactly 25, and a Gem collision adds exactly
50, with no effect on lives or phase; injecting one Coin, one Star and one
Gem collision after a fresh start yields score = 85. -/
theorem c4_reward_scores :
    (∀ (rest : List GameObject) (s l : ℤ) (ov : Bool),
      resolve dims800 player800 (coinHit :: rest) s l ov =
        resolve dims800 player800 rest (s + 10) l ov) ∧
    (∀ (rest : List GameObject) (s l : ℤ) (ov : Bool),
      resolve dims800 player800 (starHit :: rest) s l ov =
        resolve dims800 player800 rest (s + 25) l ov) ∧
    (∀ (rest : List GameObject) (s l : ℤ) (ov : Bool),
      resolve dims800 player800 (gemHit :: rest) s l ov =
        resolve dims800 player800 rest (s + 50) l ov) ∧
    (gameLoop c4Start (idleInput dims800 0)).score = 85 ∧
    (gameLoop c4Start (idleInput dims800 0)).lives = 3 ∧
    phase (gameLoop c4Start (idleInput dims800 0)) = Phase.Running := by
  refine ⟨?_, ?_, ?_, ?_, ?_, ?_⟩
  · intro rest s l ov
    simp only [resolve, coinHit_collides, if_true]
    rfl
  · intro rest s l ov
    simp only [resolve, starHit_collides, if_true]
    rfl
  · intro rest s l ov
    simp only [resolve, gemHit_collides, if_true]
    rfl
  · rw [c4Start_tick]
  · rw [c4Start_tick]
  · rw [c4Start_tick]
    rfl

/-- C10: The transition into GameOver sets only the over flag: score,
surviving entities and player position are computed independently of the
lives counter that triggers it, outcomes of other entities colliding on the
same tick still apply (a rock that kills followed by a coin still scores the
coin), and the state persists unchanged under further ticks once over. -/
theorem c10_gameover_transition :
    (∀ (st : GameState) (inp : TickInput), st.gameOver = true → gameLoop st inp = st) ∧
    (∀ (st : GameState) (inp : TickInput) (l : ℤ),
      (gameLoop { st with lives := l } inp).player = (gameLoop st inp).player ∧
      (gameLoop { st with lives := l } inp).objects = (gameLoop st inp).objects ∧
      (gameLoop { st with lives := l } inp).score = (gameLoop st inp).score) ∧
    resolve dims800 player800 [rockHit, coinHit] 0 1 false = ([], 10, 0, true) := by
  refine ⟨?_, ?_, ?_⟩
  · intro st inp h
    simp [gameLoop, h]
  · intro st inp l
    by_cases hg : (!st.gameStarted || st.gameOver) = true
    · simp only [gameLoop]
      rw [if_pos hg, if_pos hg]
      exact ⟨rfl, rfl, rfl⟩
    · simp only [gameLoop]
      rw [if_neg hg, if_neg hg]
      refine ⟨rfl, ?_, ?_⟩
      · exact (resolve_counters_independent _ _ _ _ _ _ _ _).1
      · exact (resolve_counters_independent _ _ _ _ _ _ _ _).2
  · norm_num [resolve, checkCollision, rockHit, coinHit, dims800, player800]

/-- Witness for C10 at a concrete terminal state. -/
theorem c10_gameover_transition_witness :
    gameLoop { startGame (initialState dims800) dims800 0 with gameOver := true, lives := 0 }
        (idleInput dims800 2000) =
      { startGame (initialState dims800) dims800 0 with gameOver := true, lives := 0 } :=
  c10_gameover_transition.1 _ _ rfl

theorem gameLoop_lastSpawn (st : GameState) (inp : TickInput) :
    (gameLoop st inp).lastSpawn = if spawnFired st inp then inp.now else st.lastSpawn := by
  cases hS : st.gameStarted <;> cases hO : st.gameOver <;>
    simp [gameLoop, trySpawn, spawnFired, hS, hO]
  split <;> rfl

theorem spawnTimes_gt :
    ∀ (l : List TickInput) (st : GameState) (t : ℤ),
      t ∈ spawnTimes st l → st.lastSpawn + 1000 < t := by
  intro l
  induction l with
  | nil =>
    intro st t ht
    simp [spawnTimes] at ht
  | cons inp rest ih =>
    intro st t ht
    simp only [spawnTimes] at ht
    by_cases hf : spawnFired st inp = true
    · rw [if_pos hf] at ht
      have hlast : (gameLoop st inp).lastSpawn = inp.now := by
        rw [gameLoop_lastSpawn, if_pos hf]
      have hnow : st.lastSpawn + 1000 < inp.now := by
        have h := hf
        simp only [spawnFired, Bool.and_eq_true, decide_eq_true_eq] at h
        omega
      rcases List.mem_cons.mp ht with h | h
      · omega
      · have h2 := ih (gameLoop st inp) t h
        rw [hlast] at h2
        omega
    · rw [if_neg hf] at ht
      have hlast : (gameLoop st inp).lastSpawn = st.lastSpawn := by
        rw [gameLoop_lastSpawn, if_neg hf]
      have h2 := ih (gameLoop st inp) t ht
      rw [hlast] at h2
      exact h2

theorem spawnTimes_pairwise :
    ∀ (l : List TickInput) (st : GameState),
      List.Pairwise (fun a b => a + 1000 < b) (spawnTimes st l) := by
  intro l
  induction l with
  | nil => intro st; exact List.Pairwise.nil
  | cons inp rest ih =>
    intro st
    simp only [spawnTimes]
    by_cases hf : spawnFired st inp = true
    · rw [if_pos hf]
      refine List.Pairwise.cons ?_ (ih _)
      intro t ht
      have h1 := spawnTimes_gt rest (gameLoop st inp) t ht
      have hlast : (gameLoop st inp).lastSpawn = inp.now := by
        rw [gameLoop_lastSpawn, if_pos hf]
      rw [hlast] at h1
      exact h1
    · rw [if_neg hf]
      exact ih _

/-- C3: On each tick, the spawner produces exactly one new entity when
nowMs - lastSpawnMs > 1000 and nothing otherwise; consequently, for any
clock sequence, any two spawn times in a session are more than 1000ms of
simulated time apart, and each threshold-crossing tick spawns exactly one
entity. -/
theorem c3_spawn_cadence :
    (∀ (dims : GameDimensions) (objects : List GameObject) (objectId : ℕ)
      (lastSpawn now : ℤ) (rType rX rSpeed : ℚ),
      (trySpawn dims objects objectId lastSpawn now rType rX rSpeed).1.length =
        if 1000 < now - lastSpawn then objects.length + 1 else objects.length) ∧
    (∀ (st : GameState) (l : List TickInput),
      List.Pairwise (fun a b => a + 1000 < b) (spawnTimes st l)) := by
  constructor
  · intro dims objects objectId lastSpawn now rType rX rSpeed
    by_cases h : 1000 < now - lastSpawn
    · rw [trySpawn, if_pos h, if_pos h]
      simp
    · rw [trySpawn, if_neg h, if_neg h]
  · intro st l
    exact spawnTimes_pairwise l st

/-- C7: every spawned entity's base fall speed is uniform in [3,5) for a
Hazard and in [2,3.5) otherwise, and the stored per-tick speed is the base
speed times geometry.height / BASE_HEIGHT. -/
theorem c7_fall_speed (dims : GameDimensions) (objectId : ℕ) (rType rX rSpeed : ℚ)
    (h0 : 0 ≤ rSpeed) (h1 : rSpeed < 1) :
    ∃ base : ℚ,
      (spawnObject dims objectId rType rX rSpeed).speed = base * (dims.height / BASE_HEIGHT) ∧
      ((spawnObject dims objectId rType rX rSpeed).type = ObjType.rock →
        3 ≤ base ∧ base < 5) ∧
      ((spawnObject dims objectId rType rX rSpeed).type ≠ ObjType.rock →
        2 ≤ base ∧ base < 7/2) := by
  simp only [spawnObject]
  by_cases ht : types.getD (⌊rType * 5⌋).toNat ObjType.rock = ObjType.rock
  · refine ⟨3 + rSpeed * 2, ?_, ?_, ?_⟩
    · rw [if_pos ht]
    · intro _
      constructor <;> linarith
    · intro h
      exact absurd ht h
  · refine ⟨2 + rSpeed * (3/2), ?_, ?_, ?_⟩
    · rw [if_neg ht]
    · intro h
      exact absurd h ht
    · intro _
      constructor <;> linarith

/-- Witness for C7 at the rock drawn by rType = 0 with rSpeed = 1/2. -/
theorem c7_fall_speed_witness :
    ∃ base : ℚ,
      (spawnObject dims800 0 0 0 (1/2)).speed = base * (dims800.height / BASE_HEIGHT) ∧
      ((spawnObject dims800 0 0 0 (1/2)).type = ObjType.rock → 3 ≤ base ∧ base < 5) ∧
      ((spawnObject dims800 0 0 0 (1/2)).type ≠ ObjType.rock → 2 ≤ base ∧ base < 7/2) :=
  c7_fall_speed dims800 0 0 0 (1/2) (by norm_num) (by norm_num)

theorem width_min_redundant (aw ah : ℚ) :
    max MIN_WIDTH (min ((⌊BASE_WIDTH * scaleOf aw ah⌋ : ℤ) : ℚ) aw) =
      max MIN_WIDTH ((⌊BASE_WIDTH * scaleOf aw ah⌋ : ℤ) : ℚ) := by
  have hMS : MIN_SCALE ≤ scaleOf aw ah := le_max_right _ _
  have hfloor : (280 : ℚ) ≤ ((⌊BASE_WIDTH * scaleOf aw ah⌋ : ℤ) : ℚ) := by
    have h2 : (280 : ℚ) ≤ BASE_WIDTH * scaleOf aw ah := by
      rw [BASE_WIDTH]
      rw [MIN_SCALE] at hMS
      linarith
    have h3 : (280 : ℤ) ≤ ⌊BASE_WIDTH * scaleOf aw ah⌋ := Int.le_floor.mpr (by exact_mod_cast h2)
    exact_mod_cast h3
  rcases le_total ((⌊BASE_WIDTH * scaleOf aw ah⌋ : ℤ) : ℚ) aw with hle | hge
  · rw [min_eq_left hle]
  · rw [min_eq_right hge]
    rcases le_or_lt (scaleOf aw ah) (aw / 800) with hcase | hcase
    · have hBs : BASE_WIDTH * scaleOf aw ah ≤ aw := by
        rw [BASE_WIDTH]
        linarith
      have hfl : ((⌊BASE_WIDTH * scaleOf aw ah⌋ : ℤ) : ℚ) ≤ aw :=
        le_trans (Int.floor_le _) hBs
      exact congrArg (max MIN_WIDTH) (le_antisymm hge hfl)
    · have hraw : min (min (aw / BASE_WIDTH) (ah * (6/10) / BASE_HEIGHT)) 1 ≤ aw / 800 := by
        rw [BASE_WIDTH]
        exact le_trans (min_le_left _ _) (min_le_left _ _)
      have hs2 : scaleOf aw ah = MIN_SCALE := by
        rcases le_total (min (min (aw / BASE_WIDTH) (ah * (6/10) / BASE_HEIGHT)) 1) MIN_SCALE
          with hr | hr
        · rw [scaleOf, max_eq_right hr]
        · exfalso
          have hle2 : scaleOf aw ah ≤ aw / 800 := by
            rw [scaleOf, max_eq_left hr]
            exact hraw
          linarith
      have hfl280 : (⌊BASE_WIDTH * scaleOf aw ah⌋ : ℤ) = 280 := by
        rw [hs2, BASE_WIDTH, MIN_SCALE]
        norm_num
      rw [hfl280] at hge ⊢
      rw [MIN_WIDTH]
      push_cast at hge ⊢
      rw [max_eq_left hge, max_eq_left (by norm_num)]

/-- C8 amended: the Dimension Provider is total, computes
scale = max(MIN_SCALE, min(availableWidth/BASE_WIDTH,
availableHeight·0.6/BASE_HEIGHT, 1)), derives field width, field height,
entity size and player size as floor(base·scale) clamped to their positive
minimums, but derives the player speed as max(3, 8·scale) WITHOUT flooring;
all extents are strictly positive. -/
theorem c8_dimension_provider (aw ah : ℚ) :
    calculateDimensions aw ah =
      { width := max MIN_WIDTH ((⌊BASE_WIDTH * scaleOf aw ah⌋ : ℤ) : ℚ)
        height := max MIN_HEIGHT ((⌊BASE_HEIGHT * scaleOf aw ah⌋ : ℤ) : ℚ)
        playerSize := max 20 ((⌊BASE_PLAYER_SIZE * scaleOf aw ah⌋ : ℤ) : ℚ)
        objectSize := max 16 ((⌊BASE_OBJECT_SIZE * scaleOf aw ah⌋ : ℤ) : ℚ)
        playerSpeed := max 3 (BASE_PLAYER_SPEED * scaleOf aw ah) } ∧
    0 < (calculateDimensions aw ah).width ∧
    0 < (calculateDimensions aw ah).height ∧
    0 < (calculateDimensions aw ah).playerSize ∧
    0 < (calculateDimensions aw ah).objectSize ∧
    0 < (calculateDimensions aw ah).playerSpeed := by
  have heq : calculateDimensions aw ah =
      { width := max MIN_WIDTH ((⌊BASE_WIDTH * scaleOf aw ah⌋ : ℤ) : ℚ)
        height := max MIN_HEIGHT ((⌊BASE_HEIGHT * scaleOf aw ah⌋ : ℤ) : ℚ)
        playerSize := max 20 ((⌊BASE_PLAYER_SIZE * scaleOf aw ah⌋ : ℤ) : ℚ)
        objectSize := max 16 ((⌊BASE_OBJECT_SIZE * scaleOf aw ah⌋ : ℤ) : ℚ)
        playerSpeed := max 3 (BASE_PLAYER_SPEED * scaleOf aw ah) } := by
    simp only [calculateDimensions, GameDimensions.mk.injEq]
    exact ⟨width_min_redundant aw ah, rfl, rfl, rfl, rfl⟩
  rw [heq]
  refine ⟨rfl, ?_, ?_, ?_, ?_, ?_⟩
  · exact lt_of_lt_of_le (by norm_num [MIN_WIDTH]) (le_max_left _ _)
  · exact lt_of_lt_of_le (by norm_num [MIN_HEIGHT]) (le_max_left _ _)
  · exact lt_of_lt_of_le (by norm_num) (le_max_left _ _)
  · exact lt_of_lt_of_le (by norm_num) (le_max_left _ _)
  · exact lt_of_lt_of_le (by norm_num) (le_max_left _ _)

/-- C8 counterexample: at viewport inputs (420, 10000) the scale is 21/40
and the derived player speed is 8·(21/40) = 4.2, which differs from
floor(8·scale) clamped to its minimum ( = 4): the player speed is not
floored as the claim states. -/
theorem c8_counterexample :
    (calculateDimensions 420 10000).playerSpeed ≠
      max 3 ((⌊BASE_PLAYER_SPEED * scaleOf 420 10000⌋ : ℤ) : ℚ) := by
  have h1 : scaleOf (420 : ℚ) 10000 = 21/40 := by
    rw [scaleOf, BASE_WIDTH, BASE_HEIGHT, MIN_SCALE]
    norm_num
  have h2 : (calculateDimensions 420 10000).playerSpeed = 21/5 := by
    norm_num [calculateDimensions, BASE_WIDTH, BASE_HEIGHT, BASE_PLAYER_SPEED, MIN_SCALE]
  rw [h1, h2, BASE_PLAYER_SPEED]
  norm_num

theorem movePlayer_mem (dims : GameDimensions) (keys : List String) (touch : Option TouchDir)
    (p : Player) (hsp : 0 ≤ dims.playerSpeed) (hps : dims.playerSize ≤ dims.width)
    (h0 : 0 ≤ p.x) (h1 : p.x ≤ dims.width - dims.playerSize) :
    0 ≤ (movePlayer dims keys touch p).x ∧
      (movePlayer dims keys touch p).x ≤ dims.width - dims.playerSize := by
  simp only [movePlayer]
  split_ifs with hR hL
  · constructor
    · exact le_min (by linarith) (by linarith)
    · exact min_le_left _ _
  · constructor
    · exact le_max_left _ _
    · exact max_le (by linarith) (by linarith)
  · exact ⟨h0, h1⟩

/-- C2 amended: with an unchanged geometry snapshot the player's x stays in
[0, width - playerSize] on every tick of a session; after a resize, the
re-clamp into the new bounds happens on the next tick only when the
rightward movement intent is active — the right clamp is the only bound
check applied to a stationary or left-moving player. -/
theorem c2_containment (dims : GameDimensions) :
    (∀ st : GameState, 0 ≤ dims.playerSpeed → dims.playerSize ≤ dims.width →
      ReachableAt dims st →
      0 ≤ st.player.x ∧ st.player.x ≤ dims.width - dims.playerSize) ∧
    (∀ (keys : List String) (touch : Option TouchDir) (p : Player),
      (keys.contains arrowRightKey || keys.contains lowerDKey || keys.contains upperDKey ||
        decide (touch = some TouchDir.right)) = true →
      (movePlayer dims keys touch p).x ≤ dims.width - dims.playerSize) := by
  constructor
  · intro st hsp hps h
    induction h with
    | start st now =>
      simp only [startGame, initialPlayer]
      constructor <;> linarith
    | step st inp hr hdims ih =>
      by_cases hg : (!st.gameStarted || st.gameOver) = true
      · simp only [gameLoop]
        rw [if_pos hg]
        exact ih
      · simp only [gameLoop]
        rw [if_neg hg]
        show 0 ≤ (movePlayer inp.dims inp.keys inp.touch st.player).x ∧
          (movePlayer inp.dims inp.keys inp.touch st.player).x ≤
            dims.width - dims.playerSize
        rw [hdims]
        exact movePlayer_mem dims inp.keys inp.touch st.player hsp hps ih.1 ih.2
  · intro keys touch p hright
    simp only [movePlayer]
    rw [if_pos hright]
    exact min_le_left _ _

/-- Witness for C2 amended: a freshly started session under `dims800` and
the right-clamp applied with the ArrowRight key held. -/
theorem c2_containment_witness :
    (0 ≤ (startGame (initialState dims800) dims800 0).player.x ∧
      (startGame (initialState dims800) dims800 0).player.x ≤
        dims800.width - dims800.playerSize) ∧
    (movePlayer dims800 [arrowRightKey] none player800).x ≤
      dims800.width - dims800.playerSize :=
  ⟨(c2_containment dims800).1 _ (by norm_num [dims800]) (by norm_num [dims800])
      (ReachableAt.start _ 0),
    (c2_containment dims800).2 [arrowRightKey] none player800 (by decide)⟩

/-- C2 counterexample: `c2State` is reachable, its tick ran under the
narrow geometry snapshot, and the player's x = 380 is outside
[0, dimsNarrow.width - dimsNarrow.playerSize] = [0, 296]: with no movement
intent, the player is not re-clamped after a wide-to-narrow resize. -/
theorem c2_counterexample :
    Reachable c2State ∧
      ¬(c2State.player.x ≤ dimsNarrow.width - dimsNarrow.playerSize) := by
  constructor
  · exact Reachable.step _ _ (Reachable.start _ _ _ (Reachable.init dims800))
  · have h : c2State.player.x = 380 := by
      norm_num [c2State, gameLoop, idleInput, startGame, initialState, initialPlayer,
        trySpawn, movePlayer_no_intent, resolve, dims800, dimsNarrow]
    rw [h]
    norm_num [dimsNarrow]

/-- C9 counterexample: ticking `c9State` with the original geometry keeps
the in-flight entity (its y = 403 is below height 600), while ticking the
same state with the post-resize half-scale geometry removes it (403 ≥ new
height 300): the off-field removal check reads the swapped geometry
snapshot, so the entity's fate is not unaffected by the swap. -/
theorem c9_counterexample :
    (gameLoop c9State (idleInput dims800 0)).objects.length = 1 ∧
    (gameLoop c9State (idleInput dimsHalf 0)).objects.length = 0 := by
  constructor <;>
    norm_num [gameLoop, c9State, idleInput, startGame, initialState, initialPlayer, trySpawn,
      movePlayer_no_intent, resolve, checkCollision, dims800, dimsHalf]

/-- C9 amended: on a running tick, every entity that survives is an entity
of the (possibly spawn-extended) previous collection advanced by exactly its
own stored fall speed — coordinates, speed, id and category are carried over
unchanged and the advance itself does not read the geometry; which entities
survive (off-field removal and collision consumption), however, is decided
against the current geometry snapshot. -/
theorem c9_entities_preserved (st : GameState) (inp : TickInput)
    (hs : st.gameStarted = true) (ho : st.gameOver = false) :
    ((gameLoop st inp).objects).Sublist
      (((trySpawn inp.dims st.objects st.objectId st.lastSpawn inp.now inp.rType inp.rX
          inp.rSpeed).1).map (fun o => { o with y := o.y + o.speed })) := by
  rw [gameLoop, if_neg (by rw [hs, ho]; decide)]
  exact (resolve_sublist _ _ _ _ _ _).trans (List.filter_sublist _)

/-- Witness for C9 amended at `c9State` ticked under the old geometry. -/
theorem c9_entities_preserved_witness :
    ((gameLoop c9State (idleInput dims800 0)).objects).Sublist
      (((trySpawn dims800 c9State.objects c9State.objectId c9State.lastSpawn 0 0 0 0).1).map
        (fun o => { o with y := o.y + o.speed })) :=
  c9_entities_preserved c9State (idleInput dims800 0) rfl rfl

/-- C1 amended: in every reachable state lives ≤ 3, and any reachable state
with lives ≤ 0 is in phase GameOver — the flag is set in the same transition
in which lives first reaches 0; lives is, however, NOT clamped at 0: on a
tick in which several Hazard collisions land at once, it decrements once per
hazard and may end negative. -/
theorem c1_lives_invariant (st : GameState) (h : Reachable st) :
    st.lives ≤ 3 ∧ (st.lives ≤ 0 → phase st = Phase.GameOver) := by
  induction h with
  | init dims =>
    exact ⟨by norm_num [initialState], fun hc => absurd hc (by norm_num [initialState])⟩
  | start st dims now hr ih =>
    exact ⟨by norm_num [startGame], fun hc => absurd hc (by norm_num [startGame])⟩
  | recenter st dims hr hns ih =>
    exact ih
  | step st inp hr ih =>
    cases hS : st.gameStarted with
    | false =>
      rw [gameLoop, if_pos (by rw [hS]; rfl)]
      exact ih
    | true =>
      cases hO : st.gameOver with
      | true =>
        rw [gameLoop, if_pos (by rw [hS, hO]; rfl)]
        exact ih
      | false =>
        rw [gameLoop, if_neg (by rw [hS, hO]; decide)]
        rw [hS, hO]
        constructor
        · exact le_trans (resolve_lives_le _ _ _ _ _ _) ih.1
        · intro hlv
          rcases le_or_lt st.lives 0 with hl0 | hl0
          · exfalso
            have hphase := ih.2 hl0
            rw [phase, if_pos hS, if_neg (by rw [hO]; exact Bool.false_ne_true)] at hphase
            exact absurd hphase (by decide)
          · have hover := resolve_lives_dead _ _ _ _ _ hl0 hlv
            simp [phase, hover]

/-- Witness for C1 amended at the freshly mounted state. -/
theorem c1_lives_invariant_witness :
    (initialState dims800).lives ≤ 3 ∧
      ((initialState dims800).lives ≤ 0 → phase (initialState dims800) = Phase.GameOver) :=
  c1_lives_invariant (initialState dims800) (Reachable.init dims800)

theorem gameLoop_idle (dims : GameDimensions) (now : ℤ) (st : GameState)
    (hs : st.gameStarted = true) (ho : st.gameOver = false)
    (hspawn : ¬(1000 < now - st.lastSpawn))
    (hkeep : ∀ o ∈ st.objects, o.y + o.speed < dims.height)
    (hnc : ∀ o ∈ st.objects,
      checkCollision dims { o with y := o.y + o.speed } st.player = false) :
    gameLoop st (idleInput dims now) =
      { st with objects := st.objects.map (fun o => { o with y := o.y + o.speed }) } := by
  rw [gameLoop, if_neg (by rw [hs, ho]; decide)]
  simp only [idleInput]
  rw [trySpawn, if_neg hspawn]
  rw [movePlayer_no_intent]
  have hfilter : (st.objects.map (fun o => { o with y := o.y + o.speed })).filter
      (fun o => decide (o.y < dims.height)) =
      st.objects.map (fun o => { o with y := o.y + o.speed }) := by
    rw [List.filter_eq_self]
    intro o' ho'
    obtain ⟨o, ho2, rfl⟩ := List.mem_map.mp ho'
    simpa using hkeep o ho2
  rw [hfilter]
  rw [resolve_no_collision _ _ _ _ _ _ (by
    intro o' ho'
    obtain ⟨o, ho2, rfl⟩ := List.mem_map.mp ho'
    exact hnc o ho2)]

theorem gameLoop_idle_iter (dims : GameDimensions) (now : ℤ) (n : ℕ) :
    ∀ st : GameState,
      st.gameStarted = true → st.gameOver = false →
      ¬(1000 < now - st.lastSpawn) →
      (∀ o ∈ st.objects, 0 ≤ o.speed ∧
        o.y + n * o.speed < dims.height ∧
        o.y + n * o.speed + dims.objectSize ≤ st.player.y) →
      (fun s => gameLoop s (idleInput dims now))^[n] st =
        { st with objects := st.objects.map (fun o => { o with y := o.y + n * o.speed }) } := by
  induction n with
  | zero =>
    intro st _ _ _ _
    simp only [Function.iterate_zero, id_eq, Nat.cast_zero, zero_mul, add_zero]
    rw [List.map_id']
  | succ n ih =>
    intro st hs ho hspawn hobj
    rw [Function.iterate_succ_apply]
    have h1 : gameLoop st (idleInput dims now) =
        { st with objects := st.objects.map (fun o => { o with y := o.y + o.speed }) } := by
      apply gameLoop_idle dims now st hs ho hspawn
      · intro o ho2
        obtain ⟨hsp, hlt, _⟩ := hobj o ho2
        have hn : 0 ≤ (n : ℚ) * o.speed := mul_nonneg (by positivity) hsp
        push_cast at hlt
        linarith
      · intro o ho2
        obtain ⟨hsp, _, hle⟩ := hobj o ho2
        rw [Bool.eq_false_iff]
        intro hcol
        simp only [checkCollision, Bool.and_eq_true, decide_eq_true_eq] at hcol
        have hn : 0 ≤ (n : ℚ) * o.speed := mul_nonneg (by positivity) hsp
        push_cast at hle
        have h2 := hcol.2
        simp only [] at h2
        linarith
    rw [h1]
    rw [ih { st with objects := st.objects.map (fun o => { o with y := o.y + o.speed }) }
      hs ho hspawn (by
        intro o' ho2'
        simp only [List.mem_map] at ho2'
        obtain ⟨o, ho2, rfl⟩ := ho2'
        obtain ⟨hsp, hlt, hle⟩ := hobj o ho2
        push_cast at hlt hle
        refine ⟨hsp, ?_, ?_⟩
        · show o.y + o.speed + (n : ℚ) * o.speed < dims.height
          linarith
        · show o.y + o.speed + (n : ℚ) * o.speed + dims.objectSize ≤ st.player.y
          linarith)]
    simp only [List.map_map]
    congr 1
    apply List.map_congr_left
    intro o ho2
    simp only [Function.comp_apply]
    congr 1
    push_cast
    ring

theorem c1_step1 :
    gameLoop (startGame (initialState dims800) dims800 0) (spawnInput 1001 0) = c1s1 := by
  norm_num [gameLoop, startGame, initialState, initialPlayer, spawnInput, trySpawn, spawnObject,
    types, movePlayer_no_intent, resolve, checkCollision, dims800, player800, c1s1, BASE_HEIGHT]

theorem c1_step2 : gameLoop c1s1 (spawnInput 2002 (1/2)) = c1s2 := by
  norm_num [gameLoop, spawnInput, trySpawn, spawnObject, types, movePlayer_no_intent, resolve,
    checkCollision, dims800, player800, c1s1, c1s2, BASE_HEIGHT]

theorem c1_step3 : gameLoop c1s2 (spawnInput 3003 (1/2)) = c1s3 := by
  norm_num [gameLoop, spawnInput, trySpawn, spawnObject, types, movePlayer_no_intent, resolve,
    checkCollision, dims800, player800, c1s2, c1s3, BASE_HEIGHT]

theorem c1_step4 :
    (fun s => gameLoop s (idleInput dims800 3003))^[42] c1s3 = c1s4 := by
  rw [gameLoop_idle_iter dims800 3003 42 c1s3 rfl rfl (by norm_num [c1s3]) (by
    intro o ho
    simp only [c1s3, List.mem_cons, List.not_mem_nil, or_false] at ho
    rcases ho with rfl | rfl | rfl <;> norm_num [dims800, player800, c1s3])]
  norm_num [c1s3, c1s4]

theorem c1_step5 : gameLoop c1s4 (spawnInput 4004 (1/2)) = c1s5 := by
  norm_num [gameLoop, spawnInput, trySpawn, spawnObject, types, movePlayer_no_intent, resolve,
    checkCollision, dims800, player800, c1s4, c1s5, BASE_HEIGHT]

theorem c1_step6 :
    (fun s => gameLoop s (idleInput dims800 4004))^[90] c1s5 = c1s6 := by
  rw [gameLoop_idle_iter dims800 4004 90 c1s5 rfl rfl (by norm_num [c1s5]) (by
    intro o ho
    simp only [c1s5, List.mem_cons, List.not_mem_nil, or_false] at ho
    rcases ho with rfl | rfl | rfl | rfl <;> norm_num [dims800, player800, c1s5])]
  norm_num [c1s5, c1s6]

theorem c1_step7 : gameLoop c1s6 (idleInput dims800 4004) = c1s7 := by
  norm_num [gameLoop, idleInput, trySpawn, movePlayer_no_intent, resolve, checkCollision,
    dims800, player800, c1s6, c1s7]

theorem c1_step8 : gameLoop c1s7 (idleInput dims800 4004) = c1s8 := by
  norm_num [gameLoop, idleInput, trySpawn, movePlayer_no_intent, resolve, checkCollision,
    dims800, player800, c1s7, c1s8]

theorem c1_step9 :
    (fun s => gameLoop s (idleInput dims800 4004))^[42] c1s8 = c1s9 := by
  rw [gameLoop_idle_iter dims800 4004 42 c1s8 rfl rfl (by norm_num [c1s8]) (by
    intro o ho
    simp only [c1s8, List.mem_cons, List.not_mem_nil, or_false] at ho
    rcases ho with rfl | rfl <;> norm_num [dims800, player800, c1s8])]
  norm_num [c1s8, c1s9]

theorem c1_step10 : gameLoop c1s9 (idleInput dims800 4004) =
    { gameStarted := true, gameOver := true, score := 0, lives := -1, player := player800,
      objects := [], objectId := 4, lastSpawn := 4004 } := by
  norm_num [gameLoop, idleInput, trySpawn, movePlayer_no_intent, resolve, checkCollision,
    dims800, player800, c1s9]

theorem c1Final_eval : c1Final =
    { gameStarted := true, gameOver := true, score := 0, lives := -1, player := player800,
      objects := [], objectId := 4, lastSpawn := 4004 } := by
  rw [c1Final, c1_step1, c1_step2, c1_step3, c1_step4, c1_step5, c1_step6, c1_step7, c1_step8,
    c1_step9, c1_step10]

theorem reachable_iterate (inp : TickInput) :
    ∀ (n : ℕ) (st : GameState), Reachable st →
      Reachable ((fun s => gameLoop s inp)^[n] st) := by
  intro n
  induction n with
  | zero => intro st h; exact h
  | succ n ih =>
    intro st h
    rw [Function.iterate_succ_apply]
    exact ih _ (Reachable.step _ _ h)

theorem c1Final_reachable : Reachable c1Final :=
  Reachable.step _ _ (reachable_iterate _ 42 _ (Reachable.step _ _ (Reachable.step _ _
    (reachable_iterate _ 90 _ (Reachable.step _ _ (reachable_iterate _ 42 _ (Reachable.step _ _
      (Reachable.step _ _ (Reachable.step _ _ (Reachable.start _ _ _
        (Reachable.init dims800)))))))))))

/-- C1 counterexample: `c1Final` is a reachable session state (reached by
startGame and 181 ticks in which four spawned rocks hit the player, the
last two on the same tick) whose lives counter is -1 — outside [0,3] and
not clamped at 0. Its phase is GameOver as required, but the lives bound of
the claim fails. -/
theorem c1_counterexample :
    Reachable c1Final ∧ c1Final.lives = -1 ∧ ¬(0 ≤ c1Final.lives) := by
  refine ⟨c1Final_reachable, ?_, ?_⟩
  · rw [c1Final_eval]
  · rw [c1Final_eval]
    norm_num

